import Mathlib

/-!
Shallow embedding of the soccer training tracker (`src/app.py`) and proofs
about its statistics engine.

Modelling conventions:
* An `Event` mirrors the `Event` database row: `position` and `event_type`
  are plain strings (as in the SQLite columns), `on_target` and `scored`
  are booleans, `notes` is optional text.
* A Python `datetime` timestamp is modelled as a `Timestamp`: `date` is the
  calendar date encoded as a natural number (days since an epoch; ISO-format
  date strings compare exactly like this encoding, so sorting keys agree),
  and `secondsOfDay` the time-of-day part discarded by `.date()`.
* Python floats are modelled as exact rationals `ℚ`; `round(x, 2)` is
  modelled as rounding the exact rational to a multiple of 1/100 with ties
  going to the even multiple (Python banker's rounding).
* `sum(1 for e in events if cond)` is `List.countP`.
-/

structure Timestamp where
  date : Nat
  secondsOfDay : Nat
deriving DecidableEq, Repr

/-- The `Event` model of `app.py` (lines 18-26): one recorded practice event. -/
structure Event where
  id : Nat
  timestamp : Timestamp
  position : String
  event_type : String
  on_target : Bool
  scored : Bool
  notes : Option String
deriving DecidableEq, Repr

/-- `OUTFIELD_TYPES` tuple from `app.py` line 15. -/
def OUTFIELD_TYPES : List String := ["shot", "goal", "assist", "pass"]

/-- `KEEPER_TYPES` tuple from `app.py` line 16. -/
def KEEPER_TYPES : List String := ["shot_on_goal_against", "save", "concede"]

/-- The data-model invariant of spec §3, enforced by the validation in
`add_event` (`app.py` lines 62-70): the event type belongs to the vocabulary
implied by the position. -/
def ValidEvent (e : Event) : Prop :=
  (e.position = "field" ∧ e.event_type ∈ OUTFIELD_TYPES) ∨
    (e.position = "keeper" ∧ e.event_type ∈ KEEPER_TYPES)

instance (e : Event) : Decidable (ValidEvent e) := by
  unfold ValidEvent; infer_instance

/-- `add_event` POST handler (`app.py` lines 53-77): validates the submitted
`position`/`event_type` pair and, when valid, appends the new event to the
store (`db.session.add` + `commit`); otherwise the store is untouched and the
request is rejected (flash + redirect).  Returns the new store and whether
the event was accepted.  The `id` is the store-assigned autoincrement key. -/
def add_event (store : List Event) (position event_type : String)
    (on_target scored : Bool) (notes : Option String) (now : Timestamp) :
    List Event × Bool :=
  if position ∉ (["field", "keeper"] : List String) then (store, false)
  else if position = "field" ∧ event_type ∉ OUTFIELD_TYPES then (store, false)
  else if position = "keeper" ∧ event_type ∉ KEEPER_TYPES then (store, false)
  else (store ++ [⟨store.length + 1, now, position, event_type, on_target, scored, notes⟩], true)

/-- `total_shots` (`app.py` line 87). -/
def total_shots (events : List Event) : Nat :=
  events.countP fun e => e.position == "field" && e.event_type == "shot"

/-- `total_on_target` (`app.py` line 88). -/
def total_on_target (events : List Event) : Nat :=
  events.countP fun e => e.position == "field" && e.event_type == "shot" && e.on_target

/-- `total_goals` (`app.py` line 89). -/
def total_goals (events : List Event) : Nat :=
  events.countP fun e =>
    e.position == "field" && (e.event_type == "goal" || (e.event_type == "shot" && e.scored))

/-- `total_assists` (`app.py` line 90). -/
def total_assists (events : List Event) : Nat :=
  events.countP fun e => e.position == "field" && e.event_type == "assist"

/-- `total_passes` (`app.py` line 91). -/
def total_passes (events : List Event) : Nat :=
  events.countP fun e => e.position == "field" && e.event_type == "pass"

/-- `goal_percentage` (`app.py` line 93): `None` when `total_shots` is zero
(Python falsiness of `0`), otherwise the exact ratio times 100. -/
def goal_percentage (events : List Event) : Option ℚ :=
  if total_shots events ≠ 0 then
    some ((total_goals events : ℚ) / (total_shots events : ℚ) * 100)
  else none

/-- `on_target_percentage` (`app.py` line 94). -/
def on_target_percentage (events : List Event) : Option ℚ :=
  if total_shots events ≠ 0 then
    some ((total_on_target events : ℚ) / (total_shots events : ℚ) * 100)
  else none

/-- `shots_on_against` (`app.py` line 97). -/
def shots_on_against (events : List Event) : Nat :=
  events.countP fun e => e.position == "keeper" && e.event_type == "shot_on_goal_against"

/-- `saves` (`app.py` line 98). -/
def saves (events : List Event) : Nat :=
  events.countP fun e => e.position == "keeper" && e.event_type == "save"

/-- `conceded` (`app.py` line 99). -/
def conceded (events : List Event) : Nat :=
  events.countP fun e => e.position == "keeper" && e.event_type == "concede"

/-- `save_percentage` (`app.py` line 101). -/
def save_percentage (events : List Event) : Option ℚ :=
  if shots_on_against events ≠ 0 then
    some ((saves events : ℚ) / (shots_on_against events : ℚ) * 100)
  else none

/-- `goals_allowed` (`app.py` line 102): alias under which `conceded` is exposed. -/
def goals_allowed (events : List Event) : Nat := conceded events

/-- Floor of a rational, written with `Int.fdiv` on the numerator and
denominator (equal to `⌊x⌋`, see `ratFloor_eq`). -/
def ratFloor (x : ℚ) : ℤ := Int.fdiv x.num x.den

/-- Round a rational to the nearest integer, ties to the even integer; models
Python 3 `round` (banker's rounding) applied to an exact value. -/
def roundHalfEven (x : ℚ) : ℤ :=
  if x - (ratFloor x : ℚ) < 1/2 then ratFloor x
  else if 1/2 < x - (ratFloor x : ℚ) then ratFloor x + 1
  else if ratFloor x % 2 = 0 then ratFloor x else ratFloor x + 1

/-- `round(x, 2)`: round to a multiple of 1/100 (2 decimal places). -/
def roundTo2 (x : ℚ) : ℚ := (roundHalfEven (x * 100) : ℚ) / 100

/-- Goal percentage as rendered by the stats page (`app.py` line 137):
rounded to 2 decimal places when defined, `None` otherwise. -/
def rendered_goal_percentage (events : List Event) : Option ℚ :=
  (goal_percentage events).map roundTo2

/-- On-target percentage as rendered (`app.py` line 138). -/
def rendered_on_target_percentage (events : List Event) : Option ℚ :=
  (on_target_percentage events).map roundTo2

/-- Save percentage as rendered (`app.py` line 141). -/
def rendered_save_percentage (events : List Event) : Option ℚ :=
  (save_percentage events).map roundTo2

/-- The condition of `app.py` line 122: a field goal event or a field scored
shot (the events counted by `total_goals` and the chart's `goals` series). -/
def isGoalEvent (e : Event) : Bool :=
  e.position == "field" && (e.event_type == "goal" || (e.event_type == "shot" && e.scored))

/-- The condition of `app.py` line 124: a field shot event. -/
def isShotEvent (e : Event) : Bool :=
  e.position == "field" && e.event_type == "shot"

/-- `compute_goal_progress` (`app.py` lines 147-173).  The source reads
`datetime.utcnow().date()` for the `goals_per_week` cutoff; here today's date
is an explicit argument `today`.  All numeric results live in `ℚ` (Python
mixes ints and floats); unknown metrics yield `none`. -/
def compute_goal_progress (metric : String) (target : ℚ) (events : List Event)
    (today : Nat) : Option ℚ :=
  if metric == "goals_per_week" then
    let last7 := events.filter fun e =>
      e.position == "field" &&
        (e.event_type == "goal" || (e.event_type == "shot" && e.scored)) &&
        decide (today ≤ e.timestamp.date)
    some (last7.length : ℚ)
  else if metric == "save_percentage" then
    let shots_on := events.countP fun e =>
      e.position == "keeper" && e.event_type == "shot_on_goal_against"
    let saves := events.countP fun e => e.position == "keeper" && e.event_type == "save"
    if shots_on ≠ 0 then some ((saves : ℚ) / (shots_on : ℚ) * 100) else none
  else if metric == "shots_per_training" then
    let total_shots := events.countP fun e => e.position == "field" && e.event_type == "shot"
    some (total_shots : ℚ)
  else none

/-- The per-day counters held in one `by_date[day]` entry
(`app.py` line 119: `{'goals': 0, 'shots': 0}`). -/
structure DayCounts where
  goals : Nat
  shots : Nat
deriving DecidableEq, Repr

/-- Increment the `goals` counter for day `d` in the association list that
models the `defaultdict`; a missing key starts from the default `{0, 0}`
(`app.py` line 123). -/
def bumpGoals : List (Nat × DayCounts) → Nat → List (Nat × DayCounts)
  | [], d => [(d, ⟨1, 0⟩)]
  | (k, c) :: rest, d =>
    if k = d then (k, ⟨c.goals + 1, c.shots⟩) :: rest
    else (k, c) :: bumpGoals rest d

/-- Increment the `shots` counter for day `d` (`app.py` line 125). -/
def bumpShots : List (Nat × DayCounts) → Nat → List (Nat × DayCounts)
  | [], d => [(d, ⟨0, 1⟩)]
  | (k, c) :: rest, d =>
    if k = d then (k, ⟨c.goals, c.shots + 1⟩) :: rest
    else (k, c) :: bumpShots rest d

/-- One iteration of the loop at `app.py` lines 120-125. -/
def stepByDate (m : List (Nat × DayCounts)) (e : Event) : List (Nat × DayCounts) :=
  let day := e.timestamp.date
  let m1 := if isGoalEvent e then bumpGoals m day else m
  if isShotEvent e then bumpShots m1 day else m1

/-- The `by_date` defaultdict after the loop at `app.py` lines 119-125,
as an association list in key-insertion order. -/
def by_date (events : List Event) : List (Nat × DayCounts) :=
  events.foldl stepByDate []

/-- Read a key out of the `by_date` map (defaultdict semantics: missing keys
read as the default `{0, 0}`; the source only reads existing keys). -/
def lookupDay : List (Nat × DayCounts) → Nat → DayCounts
  | [], _ => ⟨0, 0⟩
  | (k, c) :: rest, d => if k = d then c else lookupDay rest d

/-- `by_date.keys()`: the keys of the association list, in insertion order. -/
def keysOf (m : List (Nat × DayCounts)) : List Nat := m.map Prod.fst

/-- `chart_data['labels']` (`app.py` lines 126-127): `sorted(by_date.keys())`. -/
def chart_labels (events : List Event) : List Nat :=
  List.insertionSort (· ≤ ·) (keysOf (by_date events))

/-- `chart_data['goals']` (`app.py` line 128). -/
def chart_goals (events : List Event) : List Nat :=
  (chart_labels events).map fun d => (lookupDay (by_date events) d).goals

/-- `chart_data['shots']` (`app.py` line 129). -/
def chart_shots (events : List Event) : List Nat :=
  (chart_labels events).map fun d => (lookupDay (by_date events) d).shots

/-- Specification-level count: goal-or-scored-shot events of day `d`. -/
def goalsOn (events : List Event) (d : Nat) : Nat :=
  events.countP fun e => isGoalEvent e && e.timestamp.date == d

/-- Specification-level count: field shot events of day `d`. -/
def shotsOn (events : List Event) (d : Nat) : Nat :=
  events.countP fun e => isShotEvent e && e.timestamp.date == d

/-- `api_stats` field `total_shots` (`app.py` line 206). -/
def api_total_shots (events : List Event) : Nat :=
  events.countP fun e => e.position == "field" && e.event_type == "shot"

/-- `api_stats` field `total_goals` (`app.py` line 207). -/
def api_total_goals (events : List Event) : Nat :=
  events.countP fun e =>
    e.position == "field" && (e.event_type == "goal" || (e.event_type == "shot" && e.scored))

/-- `api_stats` field `total_assists` (`app.py` line 208). -/
def api_total_assists (events : List Event) : Nat :=
  events.countP fun e => e.position == "field" && e.event_type == "assist"

/-- `api_stats` field `keeper_saves` (`app.py` line 209). -/
def api_keeper_saves (events : List Event) : Nat :=
  events.countP fun e => e.position == "keeper" && e.event_type == "save"

/-- Sample event: an on-target, scored field shot. -/
def sampleShot : Event := ⟨1, ⟨0, 0⟩, "field", "shot", true, true, none⟩

/-- Sample event: an off-target, unscored field shot. -/
def samplePlainShot : Event := ⟨2, ⟨0, 0⟩, "field", "shot", false, false, none⟩

/-- Sample event: a field goal. -/
def sampleGoal : Event := ⟨3, ⟨0, 0⟩, "field", "goal", false, false, none⟩

/-- Sample event: a keeper shot-on-goal-against. -/
def sampleSOG : Event := ⟨4, ⟨0, 0⟩, "keeper", "shot_on_goal_against", false, false, none⟩

/-- Sample event: a keeper save. -/
def sampleSave : Event := ⟨5, ⟨0, 0⟩, "keeper", "save", false, false, none⟩

/-! ### Helper lemmas about rounding -/

theorem ratFloor_eq (x : ℚ) : ratFloor x = ⌊x⌋ := by
  rw [Rat.floor_def, ratFloor, Int.fdiv_eq_ediv]
  exact Int.natCast_nonneg x.den

theorem roundHalfEven_close (x : ℚ) : |((roundHalfEven x : ℤ) : ℚ) - x| ≤ 1/2 := by
  unfold roundHalfEven
  rw [ratFloor_eq]
  have h1 : (⌊x⌋ : ℚ) ≤ x := Int.floor_le x
  have h2 : x < (⌊x⌋ : ℚ) + 1 := Int.lt_floor_add_one x
  split_ifs with hlt hgt hev
  · rw [abs_le]; constructor <;> linarith
  · rw [abs_le]; push_cast; constructor <;> linarith
  · rw [abs_le]; constructor <;> linarith
  · rw [abs_le]; push_cast; constructor <;> linarith

theorem roundTo2_eq_of_floor (x : ℚ) (n : ℤ) (hfl : ⌊x * 100⌋ = n)
    (hfrac : x * 100 - (n : ℚ) < 1/2) : roundTo2 x = (n : ℚ) / 100 := by
  unfold roundTo2 roundHalfEven
  rw [ratFloor_eq, hfl, if_pos hfrac]

theorem roundTo2_den (x : ℚ) : (roundTo2 x * 100).den = 1 := by
  unfold roundTo2
  rw [div_mul_cancel₀ _ (by norm_num : (100 : ℚ) ≠ 0)]
  exact Rat.den_intCast _

/-! ### Helper lemmas about the `by_date` association list -/

theorem lookupDay_bumpGoals (m : List (Nat × DayCounts)) (d d' : Nat) :
    lookupDay (bumpGoals m d) d' =
      if d' = d then ⟨(lookupDay m d').goals + 1, (lookupDay m d').shots⟩
      else lookupDay m d' := by
  induction m with
  | nil =>
    by_cases h : d' = d
    · simp [bumpGoals, lookupDay, h]
    · simp [bumpGoals, lookupDay, h, Ne.symm h]
  | cons kc rest ih =>
    obtain ⟨k, c⟩ := kc
    by_cases hk : k = d
    · subst hk
      by_cases h : d' = k
      · simp [bumpGoals, lookupDay, h]
      · simp [bumpGoals, lookupDay, h, Ne.symm h]
    · by_cases h : k = d'
      · subst h
        simp [bumpGoals, hk, lookupDay, Ne.symm hk]
      · simp [bumpGoals, hk, lookupDay, h, ih]

theorem lookupDay_bumpShots (m : List (Nat × DayCounts)) (d d' : Nat) :
    lookupDay (bumpShots m d) d' =
      if d' = d then ⟨(lookupDay m d').goals, (lookupDay m d').shots + 1⟩
      else lookupDay m d' := by
  induction m with
  | nil =>
    by_cases h : d' = d
    · simp [bumpShots, lookupDay, h]
    · simp [bumpShots, lookupDay, h, Ne.symm h]
  | cons kc rest ih =>
    obtain ⟨k, c⟩ := kc
    by_cases hk : k = d
    · subst hk
      by_cases h : d' = k
      · simp [bumpShots, lookupDay, h]
      · simp [bumpShots, lookupDay, h, Ne.symm h]
    · by_cases h : k = d'
      · subst h
        simp [bumpShots, hk, lookupDay, Ne.symm hk]
      · simp [bumpShots, hk, lookupDay, h, ih]

@[simp] theorem keysOf_nil : keysOf [] = [] := rfl

@[simp] theorem keysOf_cons (kc : Nat × DayCounts) (m : List (Nat × DayCounts)) :
    keysOf (kc :: m) = kc.1 :: keysOf m := rfl

theorem mem_keys_bumpGoals (m : List (Nat × DayCounts)) (d d' : Nat) :
    d' ∈ keysOf (bumpGoals m d) ↔ d' ∈ keysOf m ∨ d' = d := by
  induction m with
  | nil => simp [bumpGoals, eq_comm]
  | cons kc rest ih =>
    obtain ⟨k, c⟩ := kc
    by_cases hk : k = d
    · subst hk; simp [bumpGoals]; tauto
    · simp [bumpGoals, hk, ih]; tauto

theorem mem_keys_bumpShots (m : List (Nat × DayCounts)) (d d' : Nat) :
    d' ∈ keysOf (bumpShots m d) ↔ d' ∈ keysOf m ∨ d' = d := by
  induction m with
  | nil => simp [bumpShots, eq_comm]
  | cons kc rest ih =>
    obtain ⟨k, c⟩ := kc
    by_cases hk : k = d
    · subst hk; simp [bumpShots]; tauto
    · simp [bumpShots, hk, ih]; tauto

theorem nodup_keys_bumpGoals (m : List (Nat × DayCounts)) (d : Nat)
    (h : (keysOf m).Nodup) : (keysOf (bumpGoals m d)).Nodup := by
  induction m with
  | nil => simp [bumpGoals]
  | cons kc rest ih =>
    obtain ⟨k, c⟩ := kc
    simp only [keysOf_cons, List.nodup_cons] at h
    by_cases hk : k = d
    · subst hk
      simp [bumpGoals, List.nodup_cons, h.1, h.2]
    · simp only [bumpGoals, hk, if_false, keysOf_cons, List.nodup_cons]
      refine ⟨fun hc => ?_, ih h.2⟩
      rw [mem_keys_bumpGoals] at hc
      rcases hc with hc | hc
      · exact h.1 hc
      · exact hk hc

theorem nodup_keys_bumpShots (m : List (Nat × DayCounts)) (d : Nat)
    (h : (keysOf m).Nodup) : (keysOf (bumpShots m d)).Nodup := by
  induction m with
  | nil => simp [bumpShots]
  | cons kc rest ih =>
    obtain ⟨k, c⟩ := kc
    simp only [keysOf_cons, List.nodup_cons] at h
    by_cases hk : k = d
    · subst hk
      simp [bumpShots, List.nodup_cons, h.1, h.2]
    · simp only [bumpShots, hk, if_false, keysOf_cons, List.nodup_cons]
      refine ⟨fun hc => ?_, ih h.2⟩
      rw [mem_keys_bumpShots] at hc
      rcases hc with hc | hc
      · exact h.1 hc
      · exact hk hc

theorem lookupDay_foldl (events : List Event) : ∀ (m : List (Nat × DayCounts)) (d : Nat),
    lookupDay (events.foldl stepByDate m) d =
      ⟨(lookupDay m d).goals + goalsOn events d,
       (lookupDay m d).shots + shotsOn events d⟩ := by
  induction events with
  | nil => intro m d; simp [goalsOn, shotsOn]
  | cons e es ih =>
    intro m d
    rw [List.foldl_cons, ih]
    unfold goalsOn shotsOn
    rw [List.countP_cons, List.countP_cons]
    unfold stepByDate
    by_cases hd : e.timestamp.date = d
    · subst hd
      by_cases hG : isGoalEvent e <;> by_cases hS : isShotEvent e <;>
        simp [hG, hS, lookupDay_bumpGoals, lookupDay_bumpShots, goalsOn, shotsOn] <;> omega
    · by_cases hG : isGoalEvent e <;> by_cases hS : isShotEvent e <;>
        simp [hG, hS, lookupDay_bumpGoals, lookupDay_bumpShots, goalsOn, shotsOn,
          Ne.symm hd, hd]

theorem mem_keys_foldl (events : List Event) : ∀ (m : List (Nat × DayCounts)) (d : Nat),
    d ∈ keysOf (events.foldl stepByDate m) ↔
      d ∈ keysOf m ∨
        ∃ e ∈ events, (isGoalEvent e || isShotEvent e) = true ∧ e.timestamp.date = d := by
  induction events with
  | nil => intro m d; simp
  | cons e es ih =>
    intro m d
    rw [List.foldl_cons, ih]
    unfold stepByDate
    by_cases hG : isGoalEvent e <;> by_cases hS : isShotEvent e <;>
      simp [hG, hS, mem_keys_bumpGoals, mem_keys_bumpShots] <;> aesop

theorem nodup_keys_foldl (events : List Event) : ∀ (m : List (Nat × DayCounts)),
    (keysOf m).Nodup → (keysOf (events.foldl stepByDate m)).Nodup := by
  induction events with
  | nil => intro m h; simpa using h
  | cons e es ih =>
    intro m h
    rw [List.foldl_cons]
    refine ih _ ?_
    unfold stepByDate
    by_cases hG : isGoalEvent e <;> by_cases hS : isShotEvent e <;>
      simp only [hG, hS, if_true, if_false] <;>
        first
          | exact nodup_keys_bumpShots _ _ (nodup_keys_bumpGoals _ _ h)
          | exact nodup_keys_bumpShots _ _ h
          | exact nodup_keys_bumpGoals _ _ h
          | exact h

theorem roundTo2_close (x : ℚ) : |roundTo2 x - x| ≤ 1/200 := by
  have h := roundHalfEven_close (x * 100)
  unfold roundTo2
  have h100 : (0 : ℚ) < 100 := by norm_num
  have key : (roundHalfEven (x * 100) : ℚ) / 100 - x
      = ((roundHalfEven (x * 100) : ℚ) - x * 100) / 100 := by ring
  rw [key, abs_div, abs_of_pos h100]
  rw [div_le_iff₀ h100]
  calc |(roundHalfEven (x * 100) : ℚ) - x * 100| ≤ 1/2 := h
    _ = 1/200 * 100 := by norm_num

/-! ### Claim theorems -/

/-- C1: for every collection of (data-model-conforming) events, `total_goals`
equals the number of events with position `field` and (event type `goal`, or
event type `shot` with `scored`); consequently `total_goals` is at least the
number of events whose event type is `goal`. -/
theorem c1_total_goals_counts (events : List Event)
    (h : ∀ e ∈ events, ValidEvent e) :
    total_goals events =
      events.countP (fun e => decide (e.position = "field" ∧
        (e.event_type = "goal" ∨ (e.event_type = "shot" ∧ e.scored = true)))) ∧
    events.countP (fun e => e.event_type == "goal") ≤ total_goals events := by
  constructor
  · unfold total_goals
    refine List.countP_congr fun e he => ?_
    simp [Bool.and_eq_true, Bool.or_eq_true]
  · refine List.countP_mono_left fun e he hb => ?_
    rw [beq_iff_eq] at hb
    rcases h e he with ⟨hp, _⟩ | ⟨_, ht⟩
    · simp [isGoalEvent, hp, hb]
    · rw [hb] at ht
      simp [KEEPER_TYPES] at ht

theorem c1_total_goals_counts_witness :
    (∀ e ∈ [sampleGoal, sampleShot], ValidEvent e) ∧
    (total_goals [sampleGoal, sampleShot] =
       List.countP (fun e => decide (e.position = "field" ∧
         (e.event_type = "goal" ∨ (e.event_type = "shot" ∧ e.scored = true))))
         [sampleGoal, sampleShot] ∧
     List.countP (fun e => e.event_type == "goal") [sampleGoal, sampleShot] ≤
       total_goals [sampleGoal, sampleShot]) :=
  ⟨by decide, c1_total_goals_counts [sampleGoal, sampleShot] (by decide)⟩

/-- C2: each percentage is `none` exactly when its denominator count is zero,
and otherwise is exactly numerator / denominator * 100; a zero denominator
never raises and is never replaced by a 0 percentage. -/
theorem c2_percentage_guards (events : List Event) :
    (goal_percentage events = none ↔ total_shots events = 0) ∧
    goal_percentage events =
      (if total_shots events = 0 then none
       else some ((total_goals events : ℚ) / (total_shots events : ℚ) * 100)) ∧
    (on_target_percentage events = none ↔ total_shots events = 0) ∧
    on_target_percentage events =
      (if total_shots events = 0 then none
       else some ((total_on_target events : ℚ) / (total_shots events : ℚ) * 100)) ∧
    (save_percentage events = none ↔ shots_on_against events = 0) ∧
    save_percentage events =
      (if shots_on_against events = 0 then none
       else some ((saves events : ℚ) / (shots_on_against events : ℚ) * 100)) := by
  unfold goal_percentage on_target_percentage save_percentage
  by_cases h1 : total_shots events = 0 <;> by_cases h2 : shots_on_against events = 0 <;>
    simp [h1, h2]

/-- C4: for the metric string `goals_per_week`, progress is the count of field
goal-or-scored-shot events whose date is at least today's date (not a
trailing 7-day window). -/
theorem c4_goals_per_week (events : List Event) (target : ℚ) (today : Nat) :
    compute_goal_progress "goals_per_week" target events today =
      some ((events.countP fun e => decide (e.position = "field" ∧
        (e.event_type = "goal" ∨ (e.event_type = "shot" ∧ e.scored = true)) ∧
        today ≤ e.timestamp.date)) : ℚ) := by
  unfold compute_goal_progress
  rw [if_pos (by simp)]
  simp only [← List.countP_eq_length_filter, Option.some.injEq, Nat.cast_inj]
  refine List.countP_congr fun e he => ?_
  simp [Bool.and_eq_true, Bool.or_eq_true]
  tauto

/-- C5: any metric string other than `goals_per_week`, `save_percentage` and
`shots_per_training` yields `none` (no exception). -/
theorem c5_unknown_metric (metric : String)
    (h1 : metric ≠ "goals_per_week") (h2 : metric ≠ "save_percentage")
    (h3 : metric ≠ "shots_per_training") (target : ℚ) (events : List Event)
    (today : Nat) :
    compute_goal_progress metric target events today = none := by
  unfold compute_goal_progress
  simp [h1, h2, h3]

theorem c5_unknown_metric_witness :
    compute_goal_progress "unknown_metric" 0 [] 0 = none :=
  c5_unknown_metric "unknown_metric" (by decide) (by decide) (by decide) 0 [] 0

/-- C6: a submitted event is accepted and appended to the store iff its
position is `field` or `keeper` and its event type belongs to the vocabulary
of that position; otherwise it is rejected and the store is unchanged. -/
theorem c6_validation (store : List Event) (position event_type : String)
    (ont sc : Bool) (notes : Option String) (now : Timestamp) :
    ((add_event store position event_type ont sc notes now).2 = true ↔
      ((position = "field" ∧ event_type ∈ OUTFIELD_TYPES) ∨
       (position = "keeper" ∧ event_type ∈ KEEPER_TYPES))) ∧
    ((add_event store position event_type ont sc notes now).2 = true →
      (add_event store position event_type ont sc notes now).1 =
        store ++ [⟨store.length + 1, now, position, event_type, ont, sc, notes⟩]) ∧
    ((add_event store position event_type ont sc notes now).2 = false →
      (add_event store position event_type ont sc notes now).1 = store) := by
  unfold add_event
  split_ifs with hp hf hk <;> simp_all <;> tauto

theorem c6_validation_witness :
    (((add_event [] "keeper" "save" false false none ⟨0, 0⟩).2 = true ↔
      (("keeper" = "field" ∧ "save" ∈ OUTFIELD_TYPES) ∨
       ("keeper" = "keeper" ∧ "save" ∈ KEEPER_TYPES))) ∧
     ((add_event [] "keeper" "save" false false none ⟨0, 0⟩).2 = true →
       (add_event [] "keeper" "save" false false none ⟨0, 0⟩).1 =
         [] ++ [⟨1, ⟨0, 0⟩, "keeper", "save", false, false, none⟩]) ∧
     ((add_event [] "keeper" "save" false false none ⟨0, 0⟩).2 = false →
       (add_event [] "keeper" "save" false false none ⟨0, 0⟩).1 = [])) :=
  c6_validation [] "keeper" "save" false false none ⟨0, 0⟩

/-- C8: the standalone machine-readable summary's four fields equal the
corresponding aggregates of the statistics engine on the same events. -/
theorem c8_api_matches_stats (events : List Event) :
    api_total_shots events = total_shots events ∧
    api_total_goals events = total_goals events ∧
    api_total_assists events = total_assists events ∧
    api_keeper_saves events = saves events :=
  ⟨rfl, rfl, rfl, rfl⟩

/-- C10: every count aggregate is monotone under appending an event. -/
theorem c10_counts_monotone (events : List Event) (e : Event) :
    total_shots events ≤ total_shots (events ++ [e]) ∧
    total_on_target events ≤ total_on_target (events ++ [e]) ∧
    total_goals events ≤ total_goals (events ++ [e]) ∧
    total_assists events ≤ total_assists (events ++ [e]) ∧
    total_passes events ≤ total_passes (events ++ [e]) ∧
    shots_on_against events ≤ shots_on_against (events ++ [e]) ∧
    saves events ≤ saves (events ++ [e]) ∧
    goals_allowed events ≤ goals_allowed (events ++ [e]) := by
  unfold total_shots total_on_target total_goals total_assists total_passes
    shots_on_against saves goals_allowed conceded
  refine ⟨?_, ?_, ?_, ?_, ?_, ?_, ?_, ?_⟩ <;>
    simp [List.countP_append]

/-- C3: the time series is three parallel equal-length sequences; the labels
are exactly the dates carrying at least one field shot or field
goal-or-scored-shot event, sorted strictly ascending; and the goal/shot
sequences hold the per-date counts (0 when the date only has qualifying
events of the other kind). -/
theorem c3_time_series (events : List Event) :
    (chart_goals events).length = (chart_labels events).length ∧
    (chart_shots events).length = (chart_labels events).length ∧
    List.Sorted (· < ·) (chart_labels events) ∧
    (∀ d : Nat, d ∈ chart_labels events ↔
      ∃ e ∈ events, (isGoalEvent e = true ∨ isShotEvent e = true) ∧
        e.timestamp.date = d) ∧
    chart_goals events = (chart_labels events).map (goalsOn events) ∧
    chart_shots events = (chart_labels events).map (shotsOn events) := by
  have hperm : List.Perm (chart_labels events) (keysOf (by_date events)) :=
    List.perm_insertionSort _ _
  have hnodupkeys : (keysOf (by_date events)).Nodup :=
    nodup_keys_foldl events [] (by simp)
  have hsorted_le : List.Sorted (· ≤ ·) (chart_labels events) :=
    List.sorted_insertionSort _ _
  have hnodup : (chart_labels events).Nodup := hperm.nodup_iff.mpr hnodupkeys
  refine ⟨by simp [chart_goals], by simp [chart_shots],
    hsorted_le.lt_of_le hnodup, ?_, ?_, ?_⟩
  · intro d
    rw [hperm.mem_iff, show by_date events = events.foldl stepByDate [] from rfl,
      mem_keys_foldl events [] d]
    simp only [keysOf_nil, List.not_mem_nil, false_or, Bool.or_eq_true]
  · unfold chart_goals
    refine List.map_congr_left fun d hd => ?_
    rw [show by_date events = events.foldl stepByDate [] from rfl, lookupDay_foldl]
    simp [lookupDay]
  · unfold chart_shots
    refine List.map_congr_left fun d hd => ?_
    rw [show by_date events = events.foldl stepByDate [] from rfl, lookupDay_foldl]
    simp [lookupDay]

/-- C7: whenever the relevant denominator is non-zero, each rendered
percentage is the exact ratio times 100 rounded to exactly 2 decimal places
(a multiple of 1/100 within 1/200 of the exact value); in particular 1 goal
out of 3 shots renders as 33.33. -/
theorem c7_rounded_percentages (events : List Event) :
    (total_shots events ≠ 0 →
      ∃ r : ℚ, rendered_goal_percentage events = some r ∧ (r * 100).den = 1 ∧
        |r - (total_goals events : ℚ) / (total_shots events : ℚ) * 100| ≤ 1/200) ∧
    (total_shots events ≠ 0 →
      ∃ r : ℚ, rendered_on_target_percentage events = some r ∧ (r * 100).den = 1 ∧
        |r - (total_on_target events : ℚ) / (total_shots events : ℚ) * 100| ≤ 1/200) ∧
    (shots_on_against events ≠ 0 →
      ∃ r : ℚ, rendered_save_percentage events = some r ∧ (r * 100).den = 1 ∧
        |r - (saves events : ℚ) / (shots_on_against events : ℚ) * 100| ≤ 1/200) ∧
    rendered_goal_percentage [sampleShot, samplePlainShot, samplePlainShot] =
      some (3333/100) := by
  refine ⟨?_, ?_, ?_, ?_⟩
  · intro h
    refine ⟨roundTo2 ((total_goals events : ℚ) / (total_shots events : ℚ) * 100),
      ?_, roundTo2_den _, roundTo2_close _⟩
    unfold rendered_goal_percentage goal_percentage
    rw [if_pos h, Option.map_some']
  · intro h
    refine ⟨roundTo2 ((total_on_target events : ℚ) / (total_shots events : ℚ) * 100),
      ?_, roundTo2_den _, roundTo2_close _⟩
    unfold rendered_on_target_percentage on_target_percentage
    rw [if_pos h, Option.map_some']
  · intro h
    refine ⟨roundTo2 ((saves events : ℚ) / (shots_on_against events : ℚ) * 100),
      ?_, roundTo2_den _, roundTo2_close _⟩
    unfold rendered_save_percentage save_percentage
    rw [if_pos h, Option.map_some']
  · have hg : total_goals [sampleShot, samplePlainShot, samplePlainShot] = 1 := rfl
    have hs : total_shots [sampleShot, samplePlainShot, samplePlainShot] = 3 := rfl
    unfold rendered_goal_percentage goal_percentage
    rw [hg, hs, if_pos (by norm_num), Option.map_some']
    have harg : ((1 : ℕ) : ℚ) / ((3 : ℕ) : ℚ) * 100 * 100 = 10000 / 3 := by
      norm_num
    have hfl : ⌊((1 : ℕ) : ℚ) / ((3 : ℕ) : ℚ) * 100 * 100⌋ = 3333 := by
      rw [harg]; norm_num
    have hfr : ((1 : ℕ) : ℚ) / ((3 : ℕ) : ℚ) * 100 * 100 - ((3333 : ℤ) : ℚ) < 1/2 := by
      rw [harg]; norm_num
    rw [roundTo2_eq_of_floor _ 3333 hfl hfr]
    norm_num

theorem c7_rounded_percentages_witness :
    ∃ r : ℚ,
      rendered_goal_percentage [sampleShot, samplePlainShot, samplePlainShot] = some r ∧
      (r * 100).den = 1 ∧
      |r - (total_goals [sampleShot, samplePlainShot, samplePlainShot] : ℚ) /
        (total_shots [sampleShot, samplePlainShot, samplePlainShot] : ℚ) * 100| ≤ 1/200 :=
  (c7_rounded_percentages [sampleShot, samplePlainShot, samplePlainShot]).1 (by decide)

/-- C9: `total_on_target` never exceeds `total_shots`, so a defined
on-target percentage lies between 0 and 100; no analogous bound holds for
`save_percentage`, which can exceed 100. -/
theorem c9_on_target_bounds (events : List Event) :
    total_on_target events ≤ total_shots events ∧
    (∀ r : ℚ, on_target_percentage events = some r → 0 ≤ r ∧ r ≤ 100) ∧
    (∃ evs : List Event, ∃ r : ℚ, save_percentage evs = some r ∧ 100 < r) := by
  have hmono : total_on_target events ≤ total_shots events := by
    unfold total_on_target total_shots
    refine List.countP_mono_left fun e he h => ?_
    simp only [Bool.and_eq_true] at h ⊢
    exact h.1
  refine ⟨hmono, ?_, ?_⟩
  · intro r hr
    unfold on_target_percentage at hr
    split_ifs at hr with h
    rw [Option.some.injEq] at hr
    subst hr
    have hts : (0:ℚ) < (total_shots events : ℚ) := by
      exact_mod_cast Nat.pos_of_ne_zero h
    have hle : (total_on_target events : ℚ) ≤ (total_shots events : ℚ) := by
      exact_mod_cast hmono
    constructor
    · positivity
    · have hb : (total_on_target events : ℚ) / (total_shots events : ℚ) * 100
          ≤ 1 * 100 :=
        mul_le_mul_of_nonneg_right ((div_le_one hts).mpr hle) (by norm_num)
      linarith
  · refine ⟨[sampleSOG, sampleSave, sampleSave], 200, ?_, by norm_num⟩
    have h1 : shots_on_against [sampleSOG, sampleSave, sampleSave] = 1 := rfl
    have h2 : saves [sampleSOG, sampleSave, sampleSave] = 2 := rfl
    unfold save_percentage
    rw [h1, h2, if_pos (by norm_num), Option.some.injEq]
    norm_num

theorem c9_on_target_bounds_witness :
    total_on_target [sampleShot] ≤ total_shots [sampleShot] ∧
      ((0:ℚ) ≤ 100 ∧ (100:ℚ) ≤ 100) :=
  ⟨(c9_on_target_bounds [sampleShot]).1,
   (c9_on_target_bounds [sampleShot]).2.1 100 (by
     simp [on_target_percentage, total_on_target, total_shots, sampleShot,
       List.countP_cons])⟩
